import Mathlib

/-!
Shallow embedding of the crop-yield prediction pipeline (src/app.py).

Numbers are modelled as rationals (ℚ).  Python's `round(x, 2)` becomes
`round2`.  Python's built-in `hash` is runtime/seed dependent, so every
function that calls it is parametrised by the process's string-hash
function `pyHash : String → ℤ`; two different process runs may supply two
different such functions.  A value that Python would represent as NaN
(the pandas mean of an empty selection) is modelled as `none`.  A Python
exception that the source does not catch is modelled as `Except.error`
carrying the exception kind; `Except.ok` is a normal return value.
-/

/-- `round(x, 2)` from the source: round to 2 decimal places. -/
def round2 (q : ℚ) : ℚ := (round (q * 100) : ℤ) / 100

/-- Python `str.lower()`, modelled over the character list (ASCII case
mapping, which covers every string the app's tables and the provider use). -/
def pyLower (s : String) : String := ⟨s.data.map Char.toLower⟩

/-- Python `str.capitalize()`: first character upper-cased, the rest
lower-cased. -/
def pyCapitalize (s : String) : String :=
  match s.data with
  | [] => ""
  | c :: rest => ⟨c.toUpper :: rest.map Char.toLower⟩

/-- The dictionary returned by `predict_soil_values` in src/app.py. -/
structure SoilProfile where
  type : String
  N : ℚ
  P : ℚ
  K : ℚ
  pH : ℚ
deriving DecidableEq, Repr

/-- `predict_soil_values(location, soil_type)` from src/app.py:
`base = abs(hash(location + soil_type)) % 100`, then the four NPK/pH
formulas, each `round(..., 2)`.  `pyHash` is the process's `hash`. -/
def predict_soil_values (pyHash : String → ℤ) (location soil_type : String) :
    SoilProfile :=
  let base : ℕ := (pyHash (location ++ soil_type)).natAbs % 100
  { type := pyCapitalize soil_type
    N := round2 (120 + (base : ℚ) * 1.2)
    P := round2 (25 + (base : ℚ) * 0.6)
    K := round2 (150 + (base : ℚ) * 2.0)
    pH := round2 (5.5 + ((base % 20 : ℕ) : ℚ) / 20) }

/-- The dictionary returned by `get_weather` in src/app.py. -/
structure WeatherSnapshot where
  temp : ℚ
  humidity : ℚ
  condition : String
  image : String
deriving DecidableEq, Repr

/-- `condition_map.get(s, "clear")` from `get_weather`: the fixed dict
lookup with default "clear"; `s` is already lower-cased by the caller. -/
def condition_map_get (s : String) : String :=
  if s = "clear" then "clear"
  else if s = "clouds" then "cloudy"
  else if s = "rain" then "rainy"
  else if s = "mist" then "fog"
  else if s = "haze" then "fog"
  else if s = "fog" then "fog"
  else "clear"

/-- `img_key` as computed in `get_weather`:
`condition_map.get(res["weather"][0]["main"].lower(), "clear")`. -/
def conditionImgKey (apiMain : String) : String :=
  condition_map_get (pyLower apiMain)

/-- Exception kinds the source can raise and does not catch. -/
inductive PyExn where
  | requestsError
  | keyError
  | indexError
  | typeError
deriving DecidableEq, Repr

/-- The provider's JSON body, reduced to the fields the source reads:
`res["weather"]` (a list of entries, kept as their "main" strings, `none`
when the key is absent), `res["main"]["temp"]` and `res["main"]["humidity"]`
(`none` when the path is absent). -/
structure OwmResponse where
  weatherMains : Option (List String)
  mainTemp : Option ℚ
  mainHumidity : Option ℚ

/-- Outcome of `requests.get(...)`: either the request itself fails
(raising a requests exception) or some body is obtained. -/
inductive HttpOutcome where
  | networkFailure
  | response (body : OwmResponse)

/-- `get_weather(location)` from src/app.py.  The source wraps nothing in
try/except: a network failure propagates the requests exception, a body
without `weather` raises KeyError, an empty `weather` list raises
IndexError, a missing `main.temp`/`main.humidity` raises KeyError. -/
def get_weather (outcome : HttpOutcome) : Except PyExn WeatherSnapshot :=
  match outcome with
  | .networkFailure => .error .requestsError
  | .response res =>
    match res.weatherMains with
    | none => .error .keyError
    | some [] => .error .indexError
    | some (m :: _) =>
      match res.mainTemp, res.mainHumidity with
      | some t, some h =>
          .ok { temp := t
                humidity := h
                condition := m
                image := "weather/" ++ conditionImgKey m ++ ".jpg" }
      | _, _ => .error .keyError

/-- The dictionary returned by `predict_irrigation` in src/app.py. -/
structure IrrigationPlan where
  method : String
  image : String
  steps : List String
deriving DecidableEq, Repr

/-- `predict_irrigation(soil, weather)` from src/app.py: the four-way
if/elif chain on humidity and pH, plus the fixed step list. -/
def predict_irrigation (soil : SoilProfile) (weather : WeatherSnapshot) :
    IrrigationPlan :=
  let method :=
    if weather.humidity > 80 then "Flood"
    else if soil.pH < 6.5 then "Drip"
    else if weather.humidity < 40 then "Sprinkler"
    else "Furrow"
  { method := method
    image := "irrigation/" ++ pyLower method ++ ".jpg"
    steps := ["Prepare land properly",
              "Ensure uniform water flow",
              "Avoid over-irrigation",
              "Monitor soil moisture regularly"] }

/-- One row of the `predictions` table (src/app.py `init_db`).  `yieldKg`
is `none` when the Python value is NaN. -/
structure PredRecord where
  id : ℕ
  user_id : ℕ
  crop : String
  soil : String
  acres : ℚ
  location : String
  yieldKg : Option ℚ
  created_at : String
deriving DecidableEq, Repr

/-- `df[df["Item"].str.lower() == crop.lower()]["Value"]` over the yield
table, modelled as a list of (Item, Value) rows. -/
def matchedValues (crop : String) (table : List (String × ℚ)) : List ℚ :=
  (table.filter (fun r => pyLower r.1 = pyLower crop)).map (fun r => r.2)

/-- `pandas.Series.mean()`: NaN (`none`) on an empty series, else the sum
divided by the length. -/
def seriesMean (l : List ℚ) : Option ℚ :=
  match l with
  | [] => none
  | _ => some (l.sum / (l.length : ℚ))

/-- The id sqlite assigns to the next inserted row (AUTOINCREMENT):
one more than the largest existing id. -/
def nextId (store : List PredRecord) : ℕ :=
  ((store.map (fun r => r.id)).foldr max 0) + 1

/-- The `/predict` route body from src/app.py: compute
`avg = ...mean()`, `yield_kg = round(avg * acres, 2)` and unconditionally
INSERT the row; returns the updated table and `cur.lastrowid`. -/
def predictRoute (uid : ℕ) (crop soil : String) (acres : ℚ)
    (location createdAt : String) (table : List (String × ℚ))
    (store : List PredRecord) : List PredRecord × ℕ :=
  let avg := seriesMean (matchedValues crop table)
  let yieldKg := avg.map (fun a => round2 (a * acres))
  let pid := nextId store
  (store ++ [{ id := pid
               user_id := uid
               crop := crop
               soil := soil
               acres := acres
               location := location
               yieldKg := yieldKg
               created_at := createdAt }], pid)

/-- `SELECT * FROM predictions WHERE id=?` then `fetchone()`:
the first row with that id, `none` when there is no such row. -/
def getRecord (pid : ℕ) (store : List PredRecord) : Option PredRecord :=
  store.find? (fun r => r.id = pid)

/-- `df[df["crop"].str.lower() == crop.lower()].to_dict("records")` over
the pesticide table, modelled as (crop, metadata) rows. -/
def lookup_pesticides (crop : String) (ptable : List (String × String)) :
    List (String × String) :=
  ptable.filter (fun r => pyLower r.1 = pyLower crop)

/-- The `/soil/<pid>` route from src/app.py: fetch the record, then
`predict_soil_values(p["location"], p["soil"])`.  When `fetchone()` gives
`None`, `p["location"]` raises TypeError (NoneType is not subscriptable). -/
def soil_page (pyHash : String → ℤ) (pid : ℕ) (store : List PredRecord) :
    Except PyExn SoilProfile :=
  match getRecord pid store with
  | none => .error .typeError
  | some p => .ok (predict_soil_values pyHash p.location p.soil)

/-- The `/weather/<pid>` route: fetch the record, then `get_weather`. -/
def weather_page (pid : ℕ) (store : List PredRecord) (net : HttpOutcome) :
    Except PyExn WeatherSnapshot :=
  match getRecord pid store with
  | none => .error .typeError
  | some _ => get_weather net

/-- The `/irrigation/<pid>` route: fetch the record, recompute soil and
weather, then `predict_irrigation`. -/
def irrigation_page (pyHash : String → ℤ) (pid : ℕ)
    (store : List PredRecord) (net : HttpOutcome) :
    Except PyExn IrrigationPlan :=
  match getRecord pid store with
  | none => .error .typeError
  | some p =>
    match get_weather net with
    | .error e => .error e
    | .ok w => .ok (predict_irrigation (predict_soil_values pyHash p.location p.soil) w)

/-- The `/pesticide/<pid>` route: fetch the record, filter the pesticide
table by the record's crop. -/
def pesticide_page (pid : ℕ) (store : List PredRecord)
    (ptable : List (String × String)) :
    Except PyExn (List (String × String)) :=
  match getRecord pid store with
  | none => .error .typeError
  | some p => .ok (lookup_pesticides p.crop ptable)

/-- The `data` dictionary assembled by `download_pdf` in src/app.py. -/
structure ReportData where
  crop : String
  location : String
  acres : ℚ
  yieldKg : Option ℚ
  date : String
  soil : SoilProfile
  weather : WeatherSnapshot
  irrigation : IrrigationPlan
  pesticides : List (String × String)
deriving DecidableEq, Repr

/-- The `/download-pdf/<pid>` route (the report assembler): fetch the
record, recompute soil, weather, irrigation and pesticides, bundle them. -/
def download_pdf (pyHash : String → ℤ) (pid : ℕ) (store : List PredRecord)
    (net : HttpOutcome) (ptable : List (String × String)) :
    Except PyExn ReportData :=
  match getRecord pid store with
  | none => .error .typeError
  | some p =>
    let soil := predict_soil_values pyHash p.location p.soil
    match get_weather net with
    | .error e => .error e
    | .ok w =>
        .ok { crop := p.crop
              location := p.location
              acres := p.acres
              yieldKg := p.yieldKg
              date := p.created_at
              soil := soil
              weather := w
              irrigation := predict_irrigation soil w
              pesticides := lookup_pesticides p.crop ptable }

/-- The newest prediction id of a user, as queried by `/past-predictions`:
`SELECT id ... WHERE user_id=? ORDER BY id DESC LIMIT 1` — the largest id
among the user's rows, `none` when the user has no rows. -/
def most_recent_row_id (uid : ℕ) (store : List PredRecord) : Option ℕ :=
  ((store.filter (fun r => r.user_id = uid)).map (fun r => r.id)).max?

/-- The pid the `/past-predictions` route passes to the template:
`pid = row["id"] if row else 1` from src/app.py. -/
def past_predictions_pid (uid : ℕ) (store : List PredRecord) : ℕ :=
  match most_recent_row_id uid store with
  | some i => i
  | none => 1

/-- C1: `predict_irrigation` is total, its method is exactly one of
Flood/Drip/Sprinkler/Furrow, and the method is chosen by the priority
order humidity > 80 → Flood, else pH < 6.5 → Drip, else humidity < 40 →
Sprinkler, else Furrow; at the boundaries (humidity = 80, pH = 6.5,
humidity = 40) the tie falls through to the next rule. -/
theorem predict_irrigation_priority (soil : SoilProfile) (weather : WeatherSnapshot) :
    ((predict_irrigation soil weather).method = "Flood" ∨
     (predict_irrigation soil weather).method = "Drip" ∨
     (predict_irrigation soil weather).method = "Sprinkler" ∨
     (predict_irrigation soil weather).method = "Furrow") ∧
    ((predict_irrigation soil weather).method = "Flood" ↔ weather.humidity > 80) ∧
    ((predict_irrigation soil weather).method = "Drip" ↔
      (weather.humidity ≤ 80 ∧ soil.pH < 6.5)) ∧
    ((predict_irrigation soil weather).method = "Sprinkler" ↔
      (weather.humidity ≤ 80 ∧ 6.5 ≤ soil.pH ∧ weather.humidity < 40)) ∧
    ((predict_irrigation soil weather).method = "Furrow" ↔
      (weather.humidity ≤ 80 ∧ 6.5 ≤ soil.pH ∧ 40 ≤ weather.humidity)) := by
  unfold predict_irrigation
  split_ifs with h1 h2 h3 <;> simp_all

/-- C2: when the crop has at least one case-insensitive match in the
yield table, the stored yield equals the arithmetic mean of the matched
values multiplied by acres, rounded to 2 decimal places. -/
theorem predict_stores_mean_times_acres (uid : ℕ) (crop soil : String) (acres : ℚ)
    (location createdAt : String) (table : List (String × ℚ))
    (store : List PredRecord) (h : matchedValues crop table ≠ []) :
    (predictRoute uid crop soil acres location createdAt table store).1 =
      store ++ [{ id := nextId store
                  user_id := uid
                  crop := crop
                  soil := soil
                  acres := acres
                  location := location
                  yieldKg := some (round2 ((matchedValues crop table).sum /
                    ((matchedValues crop table).length : ℚ) * acres))
                  created_at := createdAt }] := by
  cases hm : matchedValues crop table with
  | nil => exact absurd hm h
  | cons v rest => simp [predictRoute, seriesMean, hm]

/-- C2 witness: with a table whose mean for "Rice" is 4000 and acres 10,
the stored yield is 40000.00. -/
theorem predict_stores_mean_times_acres_witness :
    (predictRoute 1 "Rice" "loam" 10 "Chennai" "01-01-2025"
        [("Rice", 3000), ("Rice", 5000)] []).1 =
      [{ id := 1, user_id := 1, crop := "Rice", soil := "loam", acres := 10,
         location := "Chennai", yieldKg := some 40000,
         created_at := "01-01-2025" }] := by
  have h := predict_stores_mean_times_acres 1 "Rice" "loam" 10 "Chennai" "01-01-2025"
    [("Rice", 3000), ("Rice", 5000)] [] (by decide)
  rw [h]
  have hm : matchedValues "Rice" [("Rice", 3000), ("Rice", 5000)] = [3000, 5000] := by
    decide
  rw [hm]
  norm_num [nextId, round2, round_eq]

/-- C3: the claim says a submission whose crop matches no row is rejected
and nothing is persisted; the code instead inserts a record whose yield is
NaN (`none`), as this concrete run of the `/predict` route shows. -/
theorem predict_persists_undefined_yield :
    matchedValues "rice" [("Wheat", 3000)] = [] ∧
    (predictRoute 1 "rice" "clay" 10 "Austin" "02-01-2025" [("Wheat", 3000)] []).1 =
      [{ id := 1, user_id := 1, crop := "rice", soil := "clay", acres := 10,
         location := "Austin", yieldKg := none, created_at := "02-01-2025" }] := by
  decide

/-- C4: the soil profile comes from a bounded base in [0, 100) obtained by
hashing location and soil type together, with N = 120 + base * 1.2,
P = 25 + base * 0.6, K = 150 + base * 2.0, pH = 5.5 + (base mod 20) / 20,
each rounded to 2 decimals. -/
theorem predict_soil_values_formulas (pyHash : String → ℤ) (location soil_type : String) :
    (pyHash (location ++ soil_type)).natAbs % 100 < 100 ∧
    predict_soil_values pyHash location soil_type =
      { type := pyCapitalize soil_type
        N := round2 (120 + (((pyHash (location ++ soil_type)).natAbs % 100 : ℕ) : ℚ) * 1.2)
        P := round2 (25 + (((pyHash (location ++ soil_type)).natAbs % 100 : ℕ) : ℚ) * 0.6)
        K := round2 (150 + (((pyHash (location ++ soil_type)).natAbs % 100 : ℕ) : ℚ) * 2.0)
        pH := round2 (5.5 +
          ((((pyHash (location ++ soil_type)).natAbs % 100) % 20 : ℕ) : ℚ) / 20) } :=
  ⟨Nat.mod_lt _ (by norm_num), rfl⟩

/-- C5: the claim says the soil profile is identical across process
restarts; the code derives it from the process's built-in string hash, so
two runs whose hash functions differ on "Austinclay" (as Python's
seed-randomised `hash` can) produce different profiles. -/
theorem predict_soil_values_seed_dependent :
    predict_soil_values (fun _ => 0) "Austin" "clay" ≠
    predict_soil_values (fun _ => 1) "Austin" "clay" := by
  intro h
  have hN := congrArg SoilProfile.N h
  norm_num [predict_soil_values, round2, round_eq] at hN

/-- C6: the condition string is mapped case-insensitively through the
fixed table clear→clear, clouds→cloudy, rain→rainy, mist/haze/fog→fog,
and any string outside the table maps to "clear". -/
theorem get_weather_condition_map (s : String) :
    (pyLower s = "clear" → conditionImgKey s = "clear") ∧
    (pyLower s = "clouds" → conditionImgKey s = "cloudy") ∧
    (pyLower s = "rain" → conditionImgKey s = "rainy") ∧
    (pyLower s = "mist" → conditionImgKey s = "fog") ∧
    (pyLower s = "haze" → conditionImgKey s = "fog") ∧
    (pyLower s = "fog" → conditionImgKey s = "fog") ∧
    (pyLower s ∉ (["clear", "clouds", "rain", "mist", "haze", "fog"] : List String) →
      conditionImgKey s = "clear") := by
  refine ⟨?_, ?_, ?_, ?_, ?_, ?_, ?_⟩ <;> intro h <;>
    simp_all [conditionImgKey, condition_map_get]

/-- C6 witness: "Clouds" maps to "cloudy" and the unmapped "Drizzle"
defaults to "clear". -/
theorem get_weather_condition_map_witness :
    conditionImgKey "Clouds" = "cloudy" ∧ conditionImgKey "Drizzle" = "clear" :=
  ⟨(get_weather_condition_map "Clouds").2.1 (by decide),
   (get_weather_condition_map "Drizzle").2.2.2.2.2.2 (by decide)⟩

/-- C7: the claim says weather failures surface as a handled "weather
unavailable" value; the code catches nothing, so a network failure, a
body without the weather key, an empty weather list, and a body without
main.temp/main.humidity all raise an uncaught exception to the caller. -/
theorem get_weather_uncaught_exceptions :
    get_weather .networkFailure = .error .requestsError ∧
    get_weather (.response ⟨none, some 25, some 50⟩) = .error .keyError ∧
    get_weather (.response ⟨some [], some 25, some 50⟩) = .error .indexError ∧
    get_weather (.response ⟨some ["Clear"], none, none⟩) = .error .keyError :=
  ⟨rfl, rfl, rfl, rfl⟩

/-- A store holding one record (id 5, owned by user 1), used to evaluate
the routes on an id and a user that have no record. -/
def sampleRecord : PredRecord :=
  { id := 5, user_id := 1, crop := "rice", soil := "clay", acres := 2,
    location := "Austin", yieldKg := some 100, created_at := "03-01-2025" }

/-- C8: the claim says an unknown prediction id makes the four view
routes and the report assembler signal NotFound; the code subscripts the
`None` returned by `fetchone()`, so each of them instead raises an
uncaught TypeError. -/
theorem unknown_pid_raises_typeerror :
    getRecord 999 [sampleRecord] = none ∧
    soil_page (fun _ => 0) 999 [sampleRecord] = .error .typeError ∧
    weather_page 999 [sampleRecord]
      (.response ⟨some ["Clear"], some 25, some 50⟩) = .error .typeError ∧
    irrigation_page (fun _ => 0) 999 [sampleRecord]
      (.response ⟨some ["Clear"], some 25, some 50⟩) = .error .typeError ∧
    pesticide_page 999 [sampleRecord] [("rice", "Urea")] = .error .typeError ∧
    download_pdf (fun _ => 0) 999 [sampleRecord]
      (.response ⟨some ["Clear"], some 25, some 50⟩) [("rice", "Urea")] =
      .error .typeError :=
  ⟨rfl, rfl, rfl, rfl, rfl, rfl⟩

/-- C9: the claim says the most-recent-id lookup returns NotFound when the
user has no records; the query itself yields no row then, but the
`/past-predictions` route substitutes the fabricated id 1 (while for a
user with records it does return the newest id). -/
theorem past_predictions_fabricates_pid :
    most_recent_row_id 1 [sampleRecord] = some 5 ∧
    past_predictions_pid 1 [sampleRecord] = 5 ∧
    most_recent_row_id 7 [sampleRecord] = none ∧
    past_predictions_pid 7 [sampleRecord] = 1 ∧
    most_recent_row_id 7 [] = none ∧
    past_predictions_pid 7 [] = 1 :=
  ⟨rfl, rfl, rfl, rfl, rfl, rfl⟩

/-- The pH formula rounds to itself: (5.5 + k/20) already has at most two
decimal places. -/
lemma round2_ph_exact (k : ℕ) : round2 (5.5 + (k : ℚ) / 20) = 5.5 + (k : ℚ) / 20 := by
  unfold round2
  have h : (5.5 + (k : ℚ) / 20) * 100 = ((550 + 5 * k : ℕ) : ℚ) := by
    push_cast; ring
  rw [h, round_natCast]
  push_cast; ring

/-- C10: every soil profile the pipeline produces has pH in [5.5, 6.45],
hence strictly below 6.5, so the irrigation method recommended for such a
profile is Flood when humidity > 80 and Drip otherwise — Sprinkler and
Furrow are unreachable in the composed pipeline. -/
theorem pipeline_flood_or_drip (pyHash : String → ℤ) (location soil_type : String)
    (weather : WeatherSnapshot) :
    5.5 ≤ (predict_soil_values pyHash location soil_type).pH ∧
    (predict_soil_values pyHash location soil_type).pH ≤ 6.45 ∧
    (predict_soil_values pyHash location soil_type).pH < 6.5 ∧
    (predict_irrigation (predict_soil_values pyHash location soil_type) weather).method =
      (if weather.humidity > 80 then "Flood" else "Drip") := by
  have hk20 : ((pyHash (location ++ soil_type)).natAbs % 100) % 20 < 20 :=
    Nat.mod_lt _ (by norm_num)
  have hph : (predict_soil_values pyHash location soil_type).pH =
      5.5 + ((((pyHash (location ++ soil_type)).natAbs % 100) % 20 : ℕ) : ℚ) / 20 :=
    round2_ph_exact _
  have hkq : ((((pyHash (location ++ soil_type)).natAbs % 100) % 20 : ℕ) : ℚ) ≤ 19 := by
    exact_mod_cast Nat.le_of_lt_succ hk20
  have hkq0 : (0 : ℚ) ≤ ((((pyHash (location ++ soil_type)).natAbs % 100) % 20 : ℕ) : ℚ) :=
    Nat.cast_nonneg _
  have hlow : 5.5 ≤ (predict_soil_values pyHash location soil_type).pH := by
    rw [hph]; linarith
  have hhigh : (predict_soil_values pyHash location soil_type).pH ≤ 6.45 := by
    rw [hph]; linarith
  have hlt : (predict_soil_values pyHash location soil_type).pH < 6.5 := by linarith
  refine ⟨hlow, hhigh, hlt, ?_⟩
  by_cases hh : weather.humidity > 80
  · simp [predict_irrigation, hh]
  · simp [predict_irrigation, hh, hlt]
